import Mathlib

/-
Verification of the docker-streamer core (package streamer, file part_000 /
streamer.go).  The Go source is shallowly embedded: each directional copy of
the multiplexer is summarised by the instant its io.Copy returns and the
error it returns; channel readiness and the two nested select statements of
Streamer.stream are modelled by an outcome relation over those instants.
Purely sequential pieces (resizeTty, initTtySize, the streamIn/streamOut
bodies, the sync.Once guard of SetRawTerminal) are embedded as executable
functions.
-/

namespace DockerStreamer

/-- Errors of the Go program: the two named sentinels of the package, the
docker term.EscapeError produced by the detach escape sequence, the
context-cancellation error, and ordinary transport errors (indexed so that
distinct errors can be told apart). -/
inductive GoError where
  | emptyExecID
  | ttySizeIsZero
  | escapeError
  | canceled
  | ioError (code : Nat)
  deriving DecidableEq, Repr

/-- Observable side effects performed by the embedded code. -/
inductive Ev where
  | rawEnter
  | restoreCall
  | logInErr
  | logCloseWriteErr
  | logOutErr
  | closeWrite
  | inputDone
  | resizeCall (h w : Nat)
  | sleepMs (ms : Nat)
  deriving DecidableEq, Repr

/-- The type test `err.(term.EscapeError)` performed by streamIn. -/
def isEscape : Option GoError → Bool
  | some .escapeError => true
  | _ => false

/-- One run of Streamer.stream, summarised by the data the select statements
can observe: whether SetRawTerminal failed, the instant (none = never) and
error with which each io.Copy returned, the error of resp.CloseWrite, and
the instant the surrounding context was cancelled. -/
structure StreamRun where
  rawErr : Option GoError
  inEnd : Option Nat
  inErr : Option GoError
  closeWriteErr : Option GoError
  outEnd : Option Nat
  outErr : Option GoError
  ctxDone : Option Nat
  deriving DecidableEq, Repr

/-- The instant the `done` channel of streamIn is closed: streamIn closes it
when its io.Copy returns, except that on term.EscapeError it returns early
(the TODO branch) and the channel is never closed. -/
def inDoneTime (r : StreamRun) : Option Nat :=
  match r.inEnd with
  | none => none
  | some t => if isEscape r.inErr then none else some t

/-- `notBefore a t` holds when a channel armed at instant `a` is not ready
strictly before instant `t` (never-armed channels are never ready). -/
def notBefore (a : Option Nat) (t : Nat) : Bool :=
  match a with
  | none => true
  | some u => decide (t ≤ u)

theorem notBefore_some_iff (u t : Nat) : notBefore (some u) t = true ↔ t ≤ u := by
  simp [notBefore]

theorem notBefore_none (t : Nat) : notBefore none t = true := rfl

/-- Possible outcomes of Streamer.stream on a run `r`: `StreamOutcome r t e`
holds when stream can return error `e` at instant `t`.  The constructors
mirror the code: the early return when SetRawTerminal fails, and the four
ways through the nested select (outDone first; inDone first then outDone;
inDone first then ctx.Done; ctx.Done first).  A select branch can fire only
if no competing branch became ready strictly earlier; simultaneously ready
branches are genuinely nondeterministic, as in Go. -/
inductive StreamOutcome (r : StreamRun) : Nat → Option GoError → Prop where
  | rawFail (e : GoError) (h : r.rawErr = some e) : StreamOutcome r 0 (some e)
  | outFirst (t : Nat) (hraw : r.rawErr = none) (ho : r.outEnd = some t)
      (hin : notBefore (inDoneTime r) t = true)
      (hc : notBefore r.ctxDone t = true) :
      StreamOutcome r t r.outErr
  | inThenOut (t u : Nat) (hraw : r.rawErr = none)
      (hi : inDoneTime r = some t)
      (ho1 : notBefore r.outEnd t = true) (hc1 : notBefore r.ctxDone t = true)
      (ho : r.outEnd = some u)
      (hc2 : notBefore r.ctxDone (max t u) = true) :
      StreamOutcome r (max t u) r.outErr
  | inThenCtx (t c : Nat) (hraw : r.rawErr = none)
      (hi : inDoneTime r = some t)
      (ho1 : notBefore r.outEnd t = true) (hc1 : notBefore r.ctxDone t = true)
      (hc : r.ctxDone = some c)
      (ho2 : notBefore r.outEnd (max t c) = true) :
      StreamOutcome r (max t c) (some .canceled)
  | ctxFirst (c : Nat) (hraw : r.rawErr = none) (hc : r.ctxDone = some c)
      (ho : notBefore r.outEnd c = true)
      (hin : notBefore (inDoneTime r) c = true) :
      StreamOutcome r c (some .canceled)

/-- Events performed by the streamIn goroutine after its io.Copy returns:
restore, then on an escape error an early return, otherwise an optional
error log, resp.CloseWrite, an optional close-error log, and close(done). -/
def streamInEvents (inErr cwErr : Option GoError) : List Ev :=
  Ev.restoreCall ::
    (if isEscape inErr then []
     else
       (if inErr.isSome then [Ev.logInErr] else []) ++
         Ev.closeWrite ::
           ((if cwErr.isSome then [Ev.logCloseWriteErr] else []) ++ [Ev.inputDone]))

/-- Events performed by the streamOut goroutine after its io.Copy returns. -/
def streamOutEvents (outErr : Option GoError) : List Ev :=
  Ev.restoreCall :: (if outErr.isSome then [Ev.logOutErr] else [])

/-- Streamer.Stream: the empty exec id is rejected before anything happens;
otherwise the result is whatever the stream goroutine delivers on errCh, and
raw-mode entry is the first effect (the remaining interleaving of effects is
left abstract). -/
inductive StreamRes : String → StreamRun → Option GoError → List Ev → Prop where
  | emptyId (r : StreamRun) : StreamRes "" r (some .emptyExecID) []
  | streamed (id : String) (r : StreamRun) (t : Nat) (e : Option GoError)
      (evs : List Ev) (hne : id ≠ "") (hsel : StreamOutcome r t e) :
      StreamRes id r e (Ev.rawEnter :: evs)

/-- The local output device, as seen by Out.GetTtySize. -/
structure Out where
  h : Nat
  w : Nat
  deriving DecidableEq, Repr

/-- Out.GetTtySize. -/
def GetTtySize (o : Out) : Nat × Nat := (o.h, o.w)

/-- Streamer.resizeTty: read the local size, reject an all-zero reading with
ErrTtySizeIsZero without calling the resize capability, otherwise forward
the size to the capability and return its result.  The second component
records the capability calls performed. -/
def resizeTty (out : Out) (resize : Nat → Nat → Option GoError) :
    Option GoError × List Ev :=
  let p := GetTtySize out
  if p.1 == 0 && p.2 == 0 then (some .ttySizeIsZero, [])
  else (resize p.1 p.2, [Ev.resizeCall p.1 p.2])

/-- Result trace of Streamer.initTtySize: total resizeTty calls, retry-loop
iterations executed, the sleeps performed, and the value of err when the
retry goroutine (if any) finished.  initTtySize itself returns nothing. -/
structure InitResult where
  calls : Nat
  retries : Nat
  sleeps : List Nat
  finalErr : Option GoError
  deriving DecidableEq, Repr

/-- The retry loop of initTtySize: `for retry := 0; retry < 5; retry++
\x7b time.Sleep(10ms); if err = resizeTty(); err == nil \x7b break \x7d \x7d`.
`att i` is the result of the i-th resizeTty invocation (the initial one is
i = 0).  Returns the number of iterations executed and the last err. -/
def retryAux (att : Nat → Option GoError) :
    Nat → Nat → GoError → Nat × Option GoError
  | 0, _, last => (0, some last)
  | rem + 1, i, _ =>
    match att i with
    | none => (1, none)
    | some e =>
      ((retryAux att rem (i + 1) e).1 + 1, (retryAux att rem (i + 1) e).2)

/-- Streamer.initTtySize: one synchronous resizeTty call; on failure a
detached goroutine retries up to 5 times with a 10ms sleep before each
retry.  No error is returned to the caller. -/
def initTtySize (att : Nat → Option GoError) : InitResult :=
  match att 0 with
  | none => ⟨1, 0, [], none⟩
  | some e =>
    let p := retryAux att 5 1 e
    ⟨1 + p.1, p.1, List.replicate p.1 10, p.2⟩

/-- The sync.Once guard inside the restore closure of SetRawTerminal: state
is (already-run flag, number of underlying RestoreTerminal executions). -/
def restoreOnce (st : Bool × Nat) : Bool × Nat :=
  if st.1 then st else (true, st.2 + 1)

/-- State of the guard after k invocations of the restore closure. -/
def runRestores : Nat → Bool × Nat
  | 0 => (false, 0)
  | k + 1 => restoreOnce (runRestores k)

/-- 1 when the channel armed at `a` has fired by instant `t`. -/
def oneIf (a : Option Nat) (t : Nat) : Nat :=
  match a with
  | none => 0
  | some u => if u ≤ t then 1 else 0

/-- Number of invocations of the restore closure by the instant `t` at which
stream returns: each copy goroutine calls it when its io.Copy returns, and
the deferred call always runs at return — provided raw mode was entered at
all (on a SetRawTerminal failure no closure exists). -/
def restoreInvocations (r : StreamRun) (t : Nat) : Nat :=
  match r.rawErr with
  | some _ => 0
  | none => oneIf r.outEnd t + oneIf r.inEnd t + 1

theorem runRestores_succ (k : Nat) : runRestores (k + 1) = (true, 1) := by
  induction k with
  | zero => rfl
  | succ k ih =>
    show restoreOnce (runRestores (k + 1)) = (true, 1)
    rw [ih]
    rfl

theorem inDoneTime_eq_some {r : StreamRun} {t : Nat}
    (h : inDoneTime r = some t) : r.inEnd = some t := by
  cases he : r.inEnd with
  | none => simp [inDoneTime, he] at h
  | some u =>
    by_cases hesc : isEscape r.inErr = true
    · simp [inDoneTime, he, hesc] at h
    · simp [inDoneTime, he, hesc] at h
      simp [he, h]

theorem inDoneTime_of_clean {r : StreamRun} {t : Nat}
    (hi : r.inEnd = some t) (hesc : isEscape r.inErr = false) :
    inDoneTime r = some t := by
  simp [inDoneTime, hi, hesc]

theorem inDoneTime_of_escape {r : StreamRun}
    (hesc : isEscape r.inErr = true) : inDoneTime r = none := by
  cases he : r.inEnd <;> simp [inDoneTime, he, hesc]

/-- Claim C4: a call of Stream with an empty session identifier returns the
ErrEmptyExecID error, with an empty effect trace, i.e. before raw-mode
entry, any attach-stream I/O, or any resize call; and this is the only
possible outcome of such a call. -/
theorem stream_empty_id_rejected (id : String) (r : StreamRun)
    (h : id = "") :
    StreamRes id r (some GoError.emptyExecID) [] ∧
      ∀ e evs, StreamRes id r e evs →
        e = some GoError.emptyExecID ∧ evs = [] := by
  subst h
  refine ⟨StreamRes.emptyId r, ?_⟩
  intro e evs hres
  cases hres with
  | emptyId _ => exact ⟨rfl, rfl⟩
  | streamed _ _ t e evs hne hsel => exact absurd rfl hne

/-- A sample run used to witness the Stream-level claims. -/
def c4Run : StreamRun :=
  { rawErr := none, inEnd := none, inErr := none, closeWriteErr := none
    outEnd := some 0, outErr := none, ctxDone := none }

/-- Witness for C4 at the concrete identifier "". -/
theorem stream_empty_id_rejected_witness :
    StreamRes "" c4Run (some GoError.emptyExecID) [] :=
  (stream_empty_id_rejected "" c4Run rfl).1

/-- Claim C7: on a local size reading of rows = 0 and cols = 0, resizeTty
returns ErrTtySizeIsZero and performs no call of the resize capability. -/
theorem resizeTty_zero_size (out : Out) (resize : Nat → Nat → Option GoError)
    (hh : out.h = 0) (hw : out.w = 0) :
    resizeTty out resize = (some GoError.ttySizeIsZero, []) := by
  simp [resizeTty, GetTtySize, hh, hw]

/-- Witness for C7 at the concrete size (0, 0). -/
theorem resizeTty_zero_size_witness :
    resizeTty ⟨0, 0⟩ (fun _ _ => none) = (some GoError.ttySizeIsZero, []) :=
  resizeTty_zero_size ⟨0, 0⟩ (fun _ _ => none) rfl rfl

/-- Claim C10: when exactly one of rows and cols is zero, resizeTty does not
fail with ErrTtySizeIsZero: it invokes the resize capability with the
partially-zero size and returns the capability's own result. -/
theorem resizeTty_half_zero_forwarded (out : Out)
    (resize : Nat → Nat → Option GoError)
    (h : (out.h = 0 ∧ out.w ≠ 0) ∨ (out.h ≠ 0 ∧ out.w = 0)) :
    resizeTty out resize =
      (resize out.h out.w, [Ev.resizeCall out.h out.w]) := by
  rcases h with ⟨h1, h2⟩ | ⟨h1, h2⟩ <;> simp [resizeTty, GetTtySize, h1, h2]

/-- Witness for C10 at the concrete size (0, 24). -/
theorem resizeTty_half_zero_forwarded_witness :
    resizeTty ⟨0, 24⟩ (fun a b => some (GoError.ioError (a + b))) =
      (some (GoError.ioError 24), [Ev.resizeCall 0 24]) :=
  resizeTty_half_zero_forwarded ⟨0, 24⟩
    (fun a b => some (GoError.ioError (a + b)))
    (Or.inl ⟨rfl, by decide⟩)

/-- Claim C9: when the inbound copy ends with the detach escape condition,
streamIn performs no half-close (resp.CloseWrite is not invoked) and never
signals the input-done event (the done channel is never closed), so the
multiplexer's inbound-finished select branch is never taken: every outcome
of a detached run comes from the outbound or cancellation branches. -/
theorem streamIn_detach_no_halfclose (r : StreamRun)
    (hesc : isEscape r.inErr = true) :
    (streamInEvents r.inErr r.closeWriteErr).count Ev.closeWrite = 0 ∧
      Ev.inputDone ∉ streamInEvents r.inErr r.closeWriteErr ∧
      inDoneTime r = none ∧
      ∀ t e, StreamOutcome r t e → r.rawErr = none →
        e = r.outErr ∨ e = some GoError.canceled := by
  refine ⟨?_, ?_, inDoneTime_of_escape hesc, ?_⟩
  · simp [streamInEvents, hesc]
  · simp [streamInEvents, hesc]
  · intro t e hsel hraw
    cases hsel with
    | rawFail e h => rw [hraw] at h; cases h
    | outFirst t hraw2 ho hin hc => exact Or.inl rfl
    | inThenOut t u hraw2 hi ho1 hc1 ho hc2 =>
      rw [inDoneTime_of_escape hesc] at hi; cases hi
    | inThenCtx t c hraw2 hi ho1 hc1 hc ho2 =>
      rw [inDoneTime_of_escape hesc] at hi; cases hi
    | ctxFirst c hraw2 hc ho hin => exact Or.inr rfl

/-- A concrete detached run: the inbound copy returns term.EscapeError at
instant 0 while the outbound copy is still running (it ends at instant 5
with a transport error) and the context is never cancelled. -/
def c9Run : StreamRun :=
  { rawErr := none, inEnd := some 0, inErr := some GoError.escapeError
    closeWriteErr := none, outEnd := some 5
    outErr := some (GoError.ioError 7), ctxDone := none }

/-- Witness for C9 at the concrete detached run. -/
theorem streamIn_detach_no_halfclose_witness :
    (streamInEvents c9Run.inErr c9Run.closeWriteErr).count Ev.closeWrite = 0 :=
  (streamIn_detach_no_halfclose c9Run rfl).1

/-- A concrete detached run refuting claim C5: the inbound copy ends with
term.EscapeError at instant 0, the outbound copy ends at instant 5 with the
transport error ioError 7, the context is never cancelled. -/
def c5Run : StreamRun :=
  { rawErr := none, inEnd := some 0, inErr := some GoError.escapeError
    closeWriteErr := none, outEnd := some 5
    outErr := some (GoError.ioError 7), ctxDone := none }

/-- Counterexample to claim C5 as stated: on the concrete detached run
c5Run, stream can return the outbound transport error ioError 7 (at instant
5, long after the detach), which differs from the detach escape error — so
the detach error does not become the overall result immediately. -/
theorem detach_result_counterexample :
    isEscape c5Run.inErr = true ∧
      StreamOutcome c5Run 5 (some (GoError.ioError 7)) ∧
      ((some (GoError.ioError 7) : Option GoError) ==
        some GoError.escapeError) = false := by
  refine ⟨rfl, ?_, by decide⟩
  exact StreamOutcome.outFirst 5 rfl rfl rfl rfl

/-- Claim C5, amended: when the inbound copy ends with the detach escape
condition, streamIn silently discards it (the TODO branch): the done channel
is never armed, and every possible overall result of stream comes from the
outbound copy or from context cancellation — the detach error never becomes
the overall result by virtue of the detach. -/
theorem detach_discarded (r : StreamRun) (hraw : r.rawErr = none)
    (hesc : isEscape r.inErr = true) :
    inDoneTime r = none ∧
      ∀ t e, StreamOutcome r t e →
        e = r.outErr ∨ e = some GoError.canceled := by
  refine ⟨inDoneTime_of_escape hesc, ?_⟩
  intro t e hsel
  cases hsel with
  | rawFail e h => rw [hraw] at h; cases h
  | outFirst t hraw2 ho hin hc => exact Or.inl rfl
  | inThenOut t u hraw2 hi ho1 hc1 ho hc2 =>
    rw [inDoneTime_of_escape hesc] at hi; cases hi
  | inThenCtx t c hraw2 hi ho1 hc1 hc ho2 =>
    rw [inDoneTime_of_escape hesc] at hi; cases hi
  | ctxFirst c hraw2 hc ho hin => exact Or.inr rfl

/-- Witness for the amended C5 at the concrete detached run c5Run. -/
theorem detach_discarded_witness : inDoneTime c5Run = none :=
  (detach_discarded c5Run rfl rfl).1

/-- A concrete run refuting claim C1 as stated: the outbound copy completes
at instant 1 with the transport error ioError 3, before the inbound copy
completes (instant 9) — but the surrounding context was cancelled earlier,
at instant 0. -/
def c1Run : StreamRun :=
  { rawErr := none, inEnd := some 9, inErr := none, closeWriteErr := none
    outEnd := some 1, outErr := some (GoError.ioError 3), ctxDone := some 0 }

/-- Counterexample to claim C1 as stated: on c1Run the outbound copy
completes (with E = ioError 3) before the inbound copy does, yet stream
returns the cancellation error, not E, because the context was cancelled
before the outbound copy finished. -/
theorem outbound_priority_counterexample :
    c1Run.outEnd = some 1 ∧ c1Run.inEnd = some 9 ∧
      StreamOutcome c1Run 0 (some GoError.canceled) ∧
      ((some GoError.canceled : Option GoError) == c1Run.outErr) = false := by
  refine ⟨rfl, rfl, ?_, by decide⟩
  exact StreamOutcome.ctxFirst 0 rfl rfl (by decide) (by decide)

/-- Claim C1, amended: if the outbound copy completes with error E strictly
before the inbound copy completes and strictly before any cancellation of
the surrounding context, then E is the overall result of stream — it is a
possible outcome, and every possible outcome equals it. -/
theorem outbound_first_wins (r : StreamRun) (t : Nat)
    (hraw : r.rawErr = none) (ho : r.outEnd = some t)
    (hin : ∀ u, r.inEnd = some u → t < u)
    (hctx : ∀ c, r.ctxDone = some c → t < c) :
    StreamOutcome r t r.outErr ∧
      ∀ s e, StreamOutcome r s e → s = t ∧ e = r.outErr := by
  have hinD : notBefore (inDoneTime r) t = true := by
    cases hi : inDoneTime r with
    | none => exact notBefore_none t
    | some u =>
      exact (notBefore_some_iff u t).mpr
        (Nat.le_of_lt (hin u (inDoneTime_eq_some hi)))
  have hctxD : notBefore r.ctxDone t = true := by
    cases hcd : r.ctxDone with
    | none => exact notBefore_none t
    | some c => exact (notBefore_some_iff c t).mpr (Nat.le_of_lt (hctx c hcd))
  refine ⟨StreamOutcome.outFirst t hraw ho hinD hctxD, ?_⟩
  intro s e hsel
  cases hsel with
  | rawFail e h => rw [hraw] at h; cases h
  | outFirst s hraw2 ho2 hin2 hc2 =>
    rw [ho] at ho2
    cases ho2
    exact ⟨rfl, rfl⟩
  | inThenOut s u hraw2 hi ho1 hc1 ho2 hc2 =>
    have h1 : t < s := hin s (inDoneTime_eq_some hi)
    rw [ho] at ho1
    have h2 : s ≤ t := (notBefore_some_iff t s).mp ho1
    omega
  | inThenCtx s c hraw2 hi ho1 hc1 hc ho2 =>
    have h1 : t < s := hin s (inDoneTime_eq_some hi)
    rw [ho] at ho1
    have h2 : s ≤ t := (notBefore_some_iff t s).mp ho1
    omega
  | ctxFirst c hraw2 hc ho2 hin2 =>
    have h1 : t < s := hctx s hc
    rw [ho] at ho2
    have h2 : s ≤ t := (notBefore_some_iff t s).mp ho2
    omega

/-- A run on which the hypotheses of the amended C1 hold concretely. -/
def c1WinRun : StreamRun :=
  { rawErr := none, inEnd := some 9, inErr := none, closeWriteErr := none
    outEnd := some 2, outErr := some (GoError.ioError 1), ctxDone := some 7 }

/-- Witness for the amended C1: on c1WinRun (outbound done at 2, inbound at
9, cancellation at 7) the outbound error is a possible outcome. -/
theorem outbound_first_wins_witness :
    StreamOutcome c1WinRun 2 (some (GoError.ioError 1)) :=
  (outbound_first_wins c1WinRun 2 rfl rfl
    (fun u hu => by injection hu with h; omega)
    (fun c hc => by injection hc with h; omega)).1

/-- Claim C2: when the inbound copy completes cleanly (nil error, local
input EOF) while the outbound copy is still running, every possible result
of stream is either the outbound error — delivered no earlier than the
instant the outbound copy completes — or the cancellation error, delivered
no earlier than the instant the context is cancelled.  In particular stream
does not return before one of those two events. -/
theorem inbound_eof_waits (r : StreamRun) (t : Nat)
    (hraw : r.rawErr = none) (hi : r.inEnd = some t) (hclean : r.inErr = none)
    (hout : ∀ u, r.outEnd = some u → t < u) :
    ∀ s e, StreamOutcome r s e →
      (∃ u, r.outEnd = some u ∧ u ≤ s ∧ e = r.outErr) ∨
        (∃ c, r.ctxDone = some c ∧ c ≤ s ∧ e = some GoError.canceled) := by
  have hiD : inDoneTime r = some t :=
    inDoneTime_of_clean hi (by rw [hclean]; rfl)
  intro s e hsel
  cases hsel with
  | rawFail e h => rw [hraw] at h; cases h
  | outFirst s hraw2 ho2 hin2 hc2 =>
    have h1 : t < s := hout s ho2
    rw [hiD] at hin2
    have h2 : s ≤ t := (notBefore_some_iff t s).mp hin2
    omega
  | inThenOut v u hraw2 hi2 ho1 hc1 ho2 hc2 =>
    exact Or.inl ⟨u, ho2, Nat.le_max_right v u, rfl⟩
  | inThenCtx v c hraw2 hi2 ho1 hc1 hc2 ho2 =>
    exact Or.inr ⟨c, hc2, Nat.le_max_right v c, rfl⟩
  | ctxFirst c hraw2 hc2 ho2 hin2 =>
    exact Or.inr ⟨s, hc2, Nat.le_refl s, rfl⟩

/-- A run on which the hypotheses of C2 hold concretely: inbound EOF at
instant 0, outbound completes later, at instant 4, with a transport error. -/
def c2Run : StreamRun :=
  { rawErr := none, inEnd := some 0, inErr := none, closeWriteErr := none
    outEnd := some 4, outErr := some (GoError.ioError 2), ctxDone := none }

/-- Witness for C2 at the concrete run c2Run: the outcome in which the
outbound copy finishes after the inbound EOF satisfies the conclusion. -/
theorem inbound_eof_waits_witness :
    (∃ u, c2Run.outEnd = some u ∧ u ≤ 4 ∧
        (some (GoError.ioError 2) : Option GoError) = c2Run.outErr) ∨
      (∃ c, c2Run.ctxDone = some c ∧ c ≤ 4 ∧
        (some (GoError.ioError 2) : Option GoError) =
          some GoError.canceled) :=
  inbound_eof_waits c2Run 0 rfl rfl rfl
    (fun u hu => by injection hu with h; omega) 4 (some (GoError.ioError 2))
    (by
      have h : StreamOutcome c2Run (max 0 4) c2Run.outErr :=
        StreamOutcome.inThenOut 0 4 rfl rfl rfl rfl rfl rfl
      simpa using h)

/-- Claim C3: the restore closure returned by SetRawTerminal performs the
underlying terminal restoration at most once however many invocations race
(the sync.Once guard), and on every run in which raw mode was entered and
stream returns, the invocations performed by the return instant — the
deferred one plus those of any finished copy goroutine — make the
underlying restoration execute exactly once before stream returns. -/
theorem restore_exactly_once (r : StreamRun) (hraw : r.rawErr = none) :
    (∀ k, (runRestores k).2 ≤ 1) ∧
      ∀ t e, StreamOutcome r t e →
        (runRestores (restoreInvocations r t)).2 = 1 := by
  constructor
  · intro k
    cases k with
    | zero => exact Nat.zero_le 1
    | succ k => rw [runRestores_succ]
  · intro t e hsel
    have h : restoreInvocations r t =
        oneIf r.outEnd t + oneIf r.inEnd t + 1 := by
      simp [restoreInvocations, hraw]
    rw [h, runRestores_succ]

/-- A run witnessing C3: raw mode entered, outbound copy completes at 0. -/
def c3Run : StreamRun :=
  { rawErr := none, inEnd := none, inErr := none, closeWriteErr := none
    outEnd := some 0, outErr := none, ctxDone := none }

/-- Witness for C3: on c3Run, at the return instant 0 of the outbound-first
outcome, the underlying restoration has executed exactly once. -/
theorem restore_exactly_once_witness :
    (runRestores (restoreInvocations c3Run 0)).2 = 1 :=
  (restore_exactly_once c3Run rfl).2 0 none
    (StreamOutcome.outFirst 0 rfl rfl rfl rfl)

/-- Claim C6: when the inbound copy completes without the detach condition,
streamIn half-closes the attach stream's write side exactly once, then
signals the input-done event last; the outbound path never half-closes; and
the result of the half-close has no bearing on the possible outcomes of
stream (an error there is logged only). -/
theorem closeWrite_once (inErr cwErr outErr : Option GoError)
    (hesc : isEscape inErr = false) :
    (streamInEvents inErr cwErr).count Ev.closeWrite = 1 ∧
      (streamInEvents inErr cwErr).getLast? = some Ev.inputDone ∧
      (streamOutEvents outErr).count Ev.closeWrite = 0 ∧
      ∀ (r : StreamRun) (x : Option GoError) t e, StreamOutcome r t e →
        StreamOutcome { r with closeWriteErr := x } t e := by
  refine ⟨?_, ?_, ?_, ?_⟩
  · cases hin : inErr.isSome <;> cases hcw : cwErr.isSome <;>
      simp [streamInEvents, hesc, hin, hcw]
  · cases hin : inErr.isSome <;> cases hcw : cwErr.isSome <;>
      simp [streamInEvents, hesc, hin, hcw]
  · cases hout : outErr.isSome <;> simp [streamOutEvents, hout]
  · intro r x t e hsel
    cases hsel with
    | rawFail e h => exact StreamOutcome.rawFail e h
    | outFirst t hraw ho hin hc => exact StreamOutcome.outFirst t hraw ho hin hc
    | inThenOut t u hraw hi ho1 hc1 ho hc2 =>
      exact StreamOutcome.inThenOut t u hraw hi ho1 hc1 ho hc2
    | inThenCtx t c hraw hi ho1 hc1 hc ho2 =>
      exact StreamOutcome.inThenCtx t c hraw hi ho1 hc1 hc ho2
    | ctxFirst c hraw hc ho hin => exact StreamOutcome.ctxFirst t hraw hc ho hin

/-- Witness for C6 at a concrete clean completion whose half-close fails. -/
theorem closeWrite_once_witness :
    (streamInEvents none (some (GoError.ioError 4))).count Ev.closeWrite = 1 :=
  (closeWrite_once none (some (GoError.ioError 4)) none rfl).1

/-- Claim C8: if the first resizeTty call fails, the retry goroutine sleeps
10ms before each retry.  With a capability failing on calls 0..3 and
succeeding on call 4, initTtySize makes 5 calls in total (4 failures + 1
success: 4 retry iterations, each preceded by a 10ms sleep) and ends with no
error.  With a capability that always fails, the retry loop runs its full 5
iterations (6 calls in total, 5 sleeps of 10ms) and gives up with the error
still set; and no error from the synchronizer reaches the overall result of
Stream, which is either the empty-id rejection or an outcome of the stream
multiplexer. -/
theorem initTtySize_retry_schedule
    (att att2 : Nat → Option GoError) (e0 e1 e2 e3 : GoError)
    (h0 : att 0 = some e0) (h1 : att 1 = some e1) (h2 : att 2 = some e2)
    (h3 : att 3 = some e3) (h4 : att 4 = none)
    (hf : ∀ i, i ≤ 5 → (att2 i).isSome = true) :
    initTtySize att =
      ⟨5, 4, List.replicate 4 10, none⟩ ∧
      (initTtySize att2).calls = 6 ∧
      (initTtySize att2).retries = 5 ∧
      (initTtySize att2).sleeps = List.replicate 5 10 ∧
      (initTtySize att2).finalErr.isSome = true ∧
      ∀ id r e evs, StreamRes id r e evs →
        (id = "" ∧ e = some GoError.emptyExecID) ∨ ∃ t, StreamOutcome r t e := by
  have hrep : retryAux att 5 1 e0 = (4, none) := by
    simp [retryAux, h1, h2, h3, h4]
  obtain ⟨v0, hv0⟩ := Option.isSome_iff_exists.mp (hf 0 (by omega))
  obtain ⟨v1, hv1⟩ := Option.isSome_iff_exists.mp (hf 1 (by omega))
  obtain ⟨v2, hv2⟩ := Option.isSome_iff_exists.mp (hf 2 (by omega))
  obtain ⟨v3, hv3⟩ := Option.isSome_iff_exists.mp (hf 3 (by omega))
  obtain ⟨v4, hv4⟩ := Option.isSome_iff_exists.mp (hf 4 (by omega))
  obtain ⟨v5, hv5⟩ := Option.isSome_iff_exists.mp (hf 5 (by omega))
  have hrep2 : retryAux att2 5 1 v0 = (5, some v5) := by
    simp [retryAux, hv1, hv2, hv3, hv4, hv5]
  refine ⟨?_, ?_, ?_, ?_, ?_, ?_⟩
  · simp [initTtySize, h0, hrep]
  · simp [initTtySize, hv0, hrep2]
  · simp [initTtySize, hv0, hrep2]
  · simp [initTtySize, hv0, hrep2]
  · simp [initTtySize, hv0, hrep2]
  · intro id r e evs hres
    cases hres with
    | emptyId _ => exact Or.inl ⟨rfl, rfl⟩
    | streamed _ _ t e evs hne hsel => exact Or.inr ⟨t, hsel⟩

/-- The capability of the C8 witness: fails on the first four calls, then
succeeds. -/
def c8Att : Nat → Option GoError :=
  fun i => if i < 4 then some (GoError.ioError i) else none

/-- The always-failing capability of the C8 witness. -/
def c8AttBad : Nat → Option GoError := fun _ => some (GoError.ioError 9)

/-- Witness for C8: with c8Att, initTtySize makes 5 calls, 4 retries, 4
sleeps of 10ms, and ends successfully. -/
theorem initTtySize_retry_schedule_witness :
    initTtySize c8Att = ⟨5, 4, List.replicate 4 10, none⟩ :=
  (initTtySize_retry_schedule c8Att c8AttBad
    (GoError.ioError 0) (GoError.ioError 1) (GoError.ioError 2)
    (GoError.ioError 3) rfl rfl rfl rfl rfl (fun _ _ => rfl)).1

end DockerStreamer
